import Mathlib

/-!
Verification of the NBA assists projection engine (`assists_model.c`).

The engine is a pure arithmetic pipeline over real-valued inputs; we embed
it over `ℚ`, with the program's tunable constants gathered into a `Config`
record whose built-in values (`builtinConfig`) are the `static const double`
constants of the source.  The `Inputs` and `Output` structures mirror the
C structs of the same names field by field, and each `m_*` function below
mirrors the C function of the same name.
-/

/-- Configuration constants of the model: the `static const double` weights,
league baselines and clamp bounds declared at the top of the source file. -/
structure Config where
  W_BASE_LINE : ℚ
  W_BASE_SEASON_AVG : ℚ
  W_HOME_AWAY : ℚ
  W_GAME_TOTAL : ℚ
  W_TEAM_TOTAL : ℚ
  W_DEF_AST_ALLOWED : ℚ
  W_PACE : ℚ
  W_RECENT_FORM : ℚ
  W_MINUTES_TREND : ℚ
  W_BACK_TO_BACK : ℚ
  W_POTENTIAL_AST : ℚ
  LEAGUE_AVG_GAME_TOTAL : ℚ
  LEAGUE_AVG_TEAM_TOTAL : ℚ
  LEAGUE_AVG_PACE : ℚ
  LEAGUE_AVG_AST_ALLOWED : ℚ
  MULT_MIN : ℚ
  MULT_MAX : ℚ

/-- The built-in configuration: the literal constant values of the source
(0.55, 0.45, 0.03, 0.05, 0.10, 0.12, 0.06, 0.08, 0.10, 0.03, 0.14;
229.0, 114.5, 99.5, 25.0; 0.70, 1.40) written as exact rationals. -/
def builtinConfig : Config :=
  { W_BASE_LINE := 11/20
    W_BASE_SEASON_AVG := 9/20
    W_HOME_AWAY := 3/100
    W_GAME_TOTAL := 1/20
    W_TEAM_TOTAL := 1/10
    W_DEF_AST_ALLOWED := 3/25
    W_PACE := 3/50
    W_RECENT_FORM := 2/25
    W_MINUTES_TREND := 1/10
    W_BACK_TO_BACK := 3/100
    W_POTENTIAL_AST := 7/50
    LEAGUE_AVG_GAME_TOTAL := 229
    LEAGUE_AVG_TEAM_TOTAL := 229/2
    LEAGUE_AVG_PACE := 199/2
    LEAGUE_AVG_AST_ALLOWED := 25
    MULT_MIN := 7/10
    MULT_MAX := 7/5 }

/-- `clamp` helper of the source: `x < lo ? lo : (x > hi ? hi : x)`. -/
def clamp (x lo hi : ℚ) : ℚ :=
  if x < lo then lo else if x > hi then hi else x

/-- The `Inputs` struct of the source, field by field. -/
structure Inputs where
  player_name : String
  line_ast : ℚ
  season_avg_ast : ℚ
  is_home : Bool
  game_total_ou : ℚ
  team_total_ou : ℚ
  opp_ast_allowed : ℚ
  matchup_pace : ℚ
  recent_avg_ast : ℚ
  season_avg_minutes : ℚ
  expected_minutes : ℚ
  is_back_to_back : Bool
  last5_potential_ast : ℚ
  last5_conversion : ℚ

/-- The `Output` struct of the source, field by field. -/
structure Output where
  base_assists : ℚ
  m_homeaway : ℚ
  m_game_total : ℚ
  m_team_total : ℚ
  m_def_ast : ℚ
  m_pace : ℚ
  m_recent : ℚ
  m_minutes : ℚ
  m_b2b : ℚ
  m_potential : ℚ
  uncapped_multiplier : ℚ
  final_multiplier : ℚ
  projection : ℚ

/-- `base_assists`: `W_BASE_LINE * line_ast + W_BASE_SEASON_AVG * season_avg_ast`. -/
def base_assists (cfg : Config) (i : Inputs) : ℚ :=
  cfg.W_BASE_LINE * i.line_ast + cfg.W_BASE_SEASON_AVG * i.season_avg_ast

/-- `m_homeaway`: `is_home ? (1.0 + W_HOME_AWAY) : (1.0 - W_HOME_AWAY)`. -/
def m_homeaway (cfg : Config) (i : Inputs) : ℚ :=
  if i.is_home then 1 + cfg.W_HOME_AWAY else 1 - cfg.W_HOME_AWAY

/-- `m_game_total`: unguarded relative deviation of the game O/U from the
league baseline, `1.0 + rel * W_GAME_TOTAL`. -/
def m_game_total (cfg : Config) (i : Inputs) : ℚ :=
  1 + (i.game_total_ou - cfg.LEAGUE_AVG_GAME_TOTAL) / cfg.LEAGUE_AVG_GAME_TOTAL
      * cfg.W_GAME_TOTAL

/-- `m_team_total`: unguarded relative deviation of the team O/U from the
league baseline, `1.0 + rel * W_TEAM_TOTAL`. -/
def m_team_total (cfg : Config) (i : Inputs) : ℚ :=
  1 + (i.team_total_ou - cfg.LEAGUE_AVG_TEAM_TOTAL) / cfg.LEAGUE_AVG_TEAM_TOTAL
      * cfg.W_TEAM_TOTAL

/-- `m_def_ast`: guarded (`LEAGUE_AVG_AST_ALLOWED <= 0.0` returns `1.0`)
relative deviation of opponent assists allowed from the league baseline. -/
def m_def_ast (cfg : Config) (i : Inputs) : ℚ :=
  if cfg.LEAGUE_AVG_AST_ALLOWED ≤ 0 then 1
  else 1 + (i.opp_ast_allowed - cfg.LEAGUE_AVG_AST_ALLOWED) / cfg.LEAGUE_AVG_AST_ALLOWED
           * cfg.W_DEF_AST_ALLOWED

/-- `m_pace`: guarded (`LEAGUE_AVG_PACE <= 0.0` returns `1.0`) relative
deviation of matchup pace from the league baseline. -/
def m_pace (cfg : Config) (i : Inputs) : ℚ :=
  if cfg.LEAGUE_AVG_PACE ≤ 0 then 1
  else 1 + (i.matchup_pace - cfg.LEAGUE_AVG_PACE) / cfg.LEAGUE_AVG_PACE * cfg.W_PACE

/-- `m_recent`: guarded (`W_RECENT_FORM == 0.0 || season_avg_ast <= 0.0`
returns `1.0`) relative deviation of recent assists from the season average. -/
def m_recent (cfg : Config) (i : Inputs) : ℚ :=
  if cfg.W_RECENT_FORM = 0 ∨ i.season_avg_ast ≤ 0 then 1
  else 1 + (i.recent_avg_ast - i.season_avg_ast) / i.season_avg_ast * cfg.W_RECENT_FORM

/-- `m_minutes`: guarded (`W_MINUTES_TREND == 0.0 || season_avg_minutes <= 0.0`
returns `1.0`) relative deviation of expected minutes from season minutes. -/
def m_minutes (cfg : Config) (i : Inputs) : ℚ :=
  if cfg.W_MINUTES_TREND = 0 ∨ i.season_avg_minutes ≤ 0 then 1
  else 1 + (i.expected_minutes - i.season_avg_minutes) / i.season_avg_minutes
           * cfg.W_MINUTES_TREND

/-- `m_b2b`: `(is_back_to_back && W_BACK_TO_BACK > 0.0) ? (1.0 - W_BACK_TO_BACK) : 1.0`. -/
def m_b2b (cfg : Config) (i : Inputs) : ℚ :=
  if i.is_back_to_back = true ∧ 0 < cfg.W_BACK_TO_BACK then 1 - cfg.W_BACK_TO_BACK else 1

/-- `m_potential_assists`: guarded (`W_POTENTIAL_AST == 0.0 || season_avg_ast <= 0.0`
returns `1.0`) relative deviation of `last5_potential_ast * last5_conversion`
from the season average. -/
def m_potential_assists (cfg : Config) (i : Inputs) : ℚ :=
  if cfg.W_POTENTIAL_AST = 0 ∨ i.season_avg_ast ≤ 0 then 1
  else 1 + (i.last5_potential_ast * i.last5_conversion - i.season_avg_ast)
             / i.season_avg_ast * cfg.W_POTENTIAL_AST

/-- `project`: compute the base, the nine factors, their product, the clamped
multiplier and the projection, exactly as the source does. -/
def project (cfg : Config) (i : Inputs) : Output :=
  let b := base_assists cfg i
  let f1 := m_homeaway cfg i
  let f2 := m_game_total cfg i
  let f3 := m_team_total cfg i
  let f4 := m_def_ast cfg i
  let f5 := m_pace cfg i
  let f6 := m_recent cfg i
  let f7 := m_minutes cfg i
  let f8 := m_b2b cfg i
  let f9 := m_potential_assists cfg i
  let u := f1 * f2 * f3 * f4 * f5 * f6 * f7 * f8 * f9
  let fm := clamp u cfg.MULT_MIN cfg.MULT_MAX
  { base_assists := b
    m_homeaway := f1
    m_game_total := f2
    m_team_total := f3
    m_def_ast := f4
    m_pace := f5
    m_recent := f6
    m_minutes := f7
    m_b2b := f8
    m_potential := f9
    uncapped_multiplier := u
    final_multiplier := fm
    projection := b * fm }

/-- The list of divisors that one call to `project` actually evaluates,
following the control flow of the source: the game-total and team-total
factors divide unconditionally by their configured baselines, while the
opponent-allowed, pace, recent-form, minutes-trend and potential factors
divide only when their guard lets the division be reached. -/
def project_divisors (cfg : Config) (i : Inputs) : List ℚ :=
  [cfg.LEAGUE_AVG_GAME_TOTAL, cfg.LEAGUE_AVG_TEAM_TOTAL]
  ++ (if cfg.LEAGUE_AVG_AST_ALLOWED ≤ 0 then [] else [cfg.LEAGUE_AVG_AST_ALLOWED])
  ++ (if cfg.LEAGUE_AVG_PACE ≤ 0 then [] else [cfg.LEAGUE_AVG_PACE])
  ++ (if cfg.W_RECENT_FORM = 0 ∨ i.season_avg_ast ≤ 0 then [] else [i.season_avg_ast])
  ++ (if cfg.W_MINUTES_TREND = 0 ∨ i.season_avg_minutes ≤ 0 then [] else [i.season_avg_minutes])
  ++ (if cfg.W_POTENTIAL_AST = 0 ∨ i.season_avg_ast ≤ 0 then [] else [i.season_avg_ast])

/-- A fully neutral concrete input: line and season average 5, every
contextual value at its league baseline, last-5 potential 10 at conversion
one half so that the expected actual equals the season average exactly. -/
def neutralIn : Inputs :=
  { player_name := "Player A"
    line_ast := 5
    season_avg_ast := 5
    is_home := true
    game_total_ou := 229
    team_total_ou := 229/2
    opp_ast_allowed := 25
    matchup_pace := 199/2
    recent_avg_ast := 5
    season_avg_minutes := 32
    expected_minutes := 32
    is_back_to_back := false
    last5_potential_ast := 10
    last5_conversion := 1/2 }

/-- The end-to-end example input of the specification: last-5 potential 9.0
at conversion 0.5556, everything else neutral. -/
def specIn : Inputs :=
  { neutralIn with last5_potential_ast := 9, last5_conversion := 1389/2500 }

/-- The built-in configuration with the game-total baseline made negative:
a degenerate configuration exercising the unguarded game-total division. -/
def cfgNegGameTotal : Config :=
  { builtinConfig with LEAGUE_AVG_GAME_TOTAL := -229 }

/-- The built-in configuration with the game-total baseline zeroed:
a degenerate configuration under which `m_game_total` divides by zero. -/
def cfgZeroGameTotal : Config :=
  { builtinConfig with LEAGUE_AVG_GAME_TOTAL := 0 }

/-- A degenerate configuration with non-positive opponent-allowed and pace
baselines, exercising the guards of `m_def_ast` and `m_pace`. -/
def cfgDegenerate : Config :=
  { builtinConfig with LEAGUE_AVG_AST_ALLOWED := 0, LEAGUE_AVG_PACE := -1 }

/-- A degenerate input with non-positive season assists average and season
minutes, exercising the guards of the season-relative factors. -/
def degIn : Inputs :=
  { neutralIn with season_avg_ast := -1, season_avg_minutes := 0 }

/-- An input whose season assists average is non-positive but whose minutes
trend is genuinely non-neutral (40 expected vs 32 season minutes). -/
def degMinutesIn : Inputs :=
  { neutralIn with season_avg_ast := 0, expected_minutes := 40 }

/-- Helper: the clamped value always lies between the bounds when they are
ordered. -/
theorem clamp_mem (x lo hi : ℚ) (h : lo ≤ hi) : lo ≤ clamp x lo hi ∧ clamp x lo hi ≤ hi := by
  unfold clamp; split_ifs <;> constructor <;> linarith

/-- Helper: clamping a value already inside the bounds leaves it unchanged. -/
theorem clamp_eq_self (x lo hi : ℚ) (h1 : lo ≤ x) (h2 : x ≤ hi) : clamp x lo hi = x := by
  unfold clamp; split_ifs <;> linarith

/-- Helper: the game-total factor is neutral when the O/U equals the baseline. -/
theorem m_game_total_neutral (cfg : Config) (i : Inputs)
    (h : i.game_total_ou = cfg.LEAGUE_AVG_GAME_TOTAL) : m_game_total cfg i = 1 := by
  simp [m_game_total, h]

/-- Helper: the team-total factor is neutral when the O/U equals the baseline. -/
theorem m_team_total_neutral (cfg : Config) (i : Inputs)
    (h : i.team_total_ou = cfg.LEAGUE_AVG_TEAM_TOTAL) : m_team_total cfg i = 1 := by
  simp [m_team_total, h]

/-- Helper: the opponent-allowed factor is neutral at the baseline rate. -/
theorem m_def_ast_neutral (cfg : Config) (i : Inputs)
    (h : i.opp_ast_allowed = cfg.LEAGUE_AVG_AST_ALLOWED) : m_def_ast cfg i = 1 := by
  unfold m_def_ast; split_ifs <;> simp [h]

/-- Helper: the pace factor is neutral at the baseline pace. -/
theorem m_pace_neutral (cfg : Config) (i : Inputs)
    (h : i.matchup_pace = cfg.LEAGUE_AVG_PACE) : m_pace cfg i = 1 := by
  unfold m_pace; split_ifs <;> simp [h]

/-- Helper: the recent-form factor is neutral when recent equals season average. -/
theorem m_recent_neutral (cfg : Config) (i : Inputs)
    (h : i.recent_avg_ast = i.season_avg_ast) : m_recent cfg i = 1 := by
  unfold m_recent; split_ifs <;> simp [h]

/-- Helper: the minutes factor is neutral when expected equals season minutes. -/
theorem m_minutes_neutral (cfg : Config) (i : Inputs)
    (h : i.expected_minutes = i.season_avg_minutes) : m_minutes cfg i = 1 := by
  unfold m_minutes; split_ifs <;> simp [h]

/-- Helper: the back-to-back factor is neutral when not on a back-to-back. -/
theorem m_b2b_neutral (cfg : Config) (i : Inputs)
    (h : i.is_back_to_back = false) : m_b2b cfg i = 1 := by
  simp [m_b2b, h]

/-- Helper: the potential factor is neutral when the expected actual value
(potential times conversion) equals the season average. -/
theorem m_potential_neutral (cfg : Config) (i : Inputs)
    (h : i.last5_potential_ast * i.last5_conversion = i.season_avg_ast) :
    m_potential_assists cfg i = 1 := by
  unfold m_potential_assists; split_ifs <;> simp [h]

/-- Helper: under the built-in configuration the home/away factor is 1.03 at
home and 0.97 away. -/
theorem homeaway_builtin (i : Inputs) :
    m_homeaway builtinConfig i = if i.is_home then (103:ℚ)/100 else 97/100 := by
  cases h : i.is_home <;> norm_num [m_homeaway, h, builtinConfig]

/-- Helper: membership in a guarded singleton divisor list forces the guard
to be false and identifies the element. -/
theorem mem_guard_list {c : Prop} [Decidable c] {x d : ℚ}
    (h : d ∈ (if c then ([] : List ℚ) else [x])) : ¬c ∧ d = x := by
  by_cases hc : c
  · simp [hc] at h
  · simp [hc] at h
    exact ⟨hc, h⟩

/-- C1 (counterexample): at the fully neutral input `neutralIn` (every
contextual input at its neutral value, opponent-allowed rate included, played
at home), `project` returns `uncapped_multiplier = 1.03`, not `1.0`, and the
projection differs from the base value: the home/away factor is never
neutral, so the claimed exact neutrality fails. -/
theorem neutral_context_uncapped_ne_one :
    (project builtinConfig neutralIn).uncapped_multiplier = 103/100
    ∧ (project builtinConfig neutralIn).uncapped_multiplier ≠ 1
    ∧ (project builtinConfig neutralIn).projection ≠ (project builtinConfig neutralIn).base_assists := by
  refine ⟨?_, ?_, ?_⟩ <;>
    norm_num [project, base_assists, m_homeaway, m_game_total, m_team_total, m_def_ast,
      m_pace, m_recent, m_minutes, m_b2b, m_potential_assists, clamp, builtinConfig, neutralIn]

/-- C1 (amended): if every contextual input other than home/away equals its
neutral value (all O/U, opponent-allowed and pace inputs at their league
baselines, recent equal to season average, expected equal to season minutes,
not back-to-back, potential times conversion equal to season average), then
the eight factors other than home/away are each exactly 1, so
`uncapped_multiplier` equals the home/away factor (1.03 at home, 0.97 away),
the clamp leaves it unchanged, and `projection = base_value * m_homeaway`. -/
theorem neutral_context_uncapped_eq_homeaway (i : Inputs)
    (hg : i.game_total_ou = builtinConfig.LEAGUE_AVG_GAME_TOTAL)
    (ht : i.team_total_ou = builtinConfig.LEAGUE_AVG_TEAM_TOTAL)
    (ho : i.opp_ast_allowed = builtinConfig.LEAGUE_AVG_AST_ALLOWED)
    (hp : i.matchup_pace = builtinConfig.LEAGUE_AVG_PACE)
    (hr : i.recent_avg_ast = i.season_avg_ast)
    (hm : i.expected_minutes = i.season_avg_minutes)
    (hb : i.is_back_to_back = false)
    (hpc : i.last5_potential_ast * i.last5_conversion = i.season_avg_ast) :
    (project builtinConfig i).uncapped_multiplier = m_homeaway builtinConfig i
    ∧ (project builtinConfig i).final_multiplier = m_homeaway builtinConfig i
    ∧ (project builtinConfig i).projection
        = (project builtinConfig i).base_assists * m_homeaway builtinConfig i := by
  have hu : (project builtinConfig i).uncapped_multiplier
      = m_homeaway builtinConfig i * m_game_total builtinConfig i * m_team_total builtinConfig i
        * m_def_ast builtinConfig i * m_pace builtinConfig i * m_recent builtinConfig i
        * m_minutes builtinConfig i * m_b2b builtinConfig i
        * m_potential_assists builtinConfig i := rfl
  rw [m_game_total_neutral _ _ hg, m_team_total_neutral _ _ ht, m_def_ast_neutral _ _ ho,
    m_pace_neutral _ _ hp, m_recent_neutral _ _ hr, m_minutes_neutral _ _ hm,
    m_b2b_neutral _ _ hb, m_potential_neutral _ _ hpc] at hu
  have hu' : (project builtinConfig i).uncapped_multiplier = m_homeaway builtinConfig i := by
    rw [hu]; ring
  have hb1 : builtinConfig.MULT_MIN ≤ m_homeaway builtinConfig i := by
    rw [homeaway_builtin]; split <;> norm_num [builtinConfig]
  have hb2 : m_homeaway builtinConfig i ≤ builtinConfig.MULT_MAX := by
    rw [homeaway_builtin]; split <;> norm_num [builtinConfig]
  have e1 : (project builtinConfig i).final_multiplier
      = clamp ((project builtinConfig i).uncapped_multiplier)
          builtinConfig.MULT_MIN builtinConfig.MULT_MAX := rfl
  have hfm : (project builtinConfig i).final_multiplier = m_homeaway builtinConfig i := by
    rw [e1, hu', clamp_eq_self _ _ _ hb1 hb2]
  have e2 : (project builtinConfig i).projection
      = (project builtinConfig i).base_assists * (project builtinConfig i).final_multiplier := rfl
  exact ⟨hu', hfm, by rw [e2, hfm]⟩

/-- C1 (witness): the amended theorem applied at the concrete neutral input,
with every hypothesis discharged by evaluation. -/
theorem neutral_context_uncapped_eq_homeaway_witness :
    neutralIn.game_total_ou = builtinConfig.LEAGUE_AVG_GAME_TOTAL
    ∧ neutralIn.team_total_ou = builtinConfig.LEAGUE_AVG_TEAM_TOTAL
    ∧ neutralIn.opp_ast_allowed = builtinConfig.LEAGUE_AVG_AST_ALLOWED
    ∧ neutralIn.matchup_pace = builtinConfig.LEAGUE_AVG_PACE
    ∧ neutralIn.recent_avg_ast = neutralIn.season_avg_ast
    ∧ neutralIn.expected_minutes = neutralIn.season_avg_minutes
    ∧ neutralIn.is_back_to_back = false
    ∧ neutralIn.last5_potential_ast * neutralIn.last5_conversion = neutralIn.season_avg_ast
    ∧ (project builtinConfig neutralIn).uncapped_multiplier = m_homeaway builtinConfig neutralIn :=
  ⟨rfl, rfl, rfl, rfl, rfl, rfl, rfl, by norm_num [neutralIn],
    (neutral_context_uncapped_eq_homeaway neutralIn rfl rfl rfl rfl rfl rfl rfl
      (by norm_num [neutralIn])).1⟩

/-- C2: for every configuration whose clamp bounds are ordered and every
input, the final multiplier produced by `project` lies in the closed interval
from `MULT_MIN` to `MULT_MAX` (built-in: 0.70 to 1.40). -/
theorem final_multiplier_mem_caps (cfg : Config) (i : Inputs)
    (h : cfg.MULT_MIN ≤ cfg.MULT_MAX) :
    cfg.MULT_MIN ≤ (project cfg i).final_multiplier
    ∧ (project cfg i).final_multiplier ≤ cfg.MULT_MAX := by
  have e : (project cfg i).final_multiplier
      = clamp ((project cfg i).uncapped_multiplier) cfg.MULT_MIN cfg.MULT_MAX := rfl
  rw [e]; exact clamp_mem _ _ _ h

/-- C2 (witness): the cap theorem at the built-in configuration and a concrete
input. -/
theorem final_multiplier_mem_caps_witness :
    builtinConfig.MULT_MIN ≤ builtinConfig.MULT_MAX
    ∧ (builtinConfig.MULT_MIN ≤ (project builtinConfig neutralIn).final_multiplier
       ∧ (project builtinConfig neutralIn).final_multiplier ≤ builtinConfig.MULT_MAX) :=
  ⟨by norm_num [builtinConfig],
    final_multiplier_mem_caps builtinConfig neutralIn (by norm_num [builtinConfig])⟩

/-- C3 (counterexample): the game-total factor is not guarded.  Under a
configuration whose game-total baseline is the non-positive value -229, the
factor evaluates to 0.9, not to the neutral 1.0 the claim requires; and under
a configuration whose game-total baseline is 0, the divisor 0 is among the
divisions `project` performs. -/
theorem game_total_division_unguarded :
    m_game_total cfgNegGameTotal neutralIn = 9/10
    ∧ m_game_total cfgNegGameTotal neutralIn ≠ 1
    ∧ cfgNegGameTotal.LEAGUE_AVG_GAME_TOTAL ≤ 0
    ∧ (0:ℚ) ∈ project_divisors cfgZeroGameTotal neutralIn := by
  refine ⟨?_, ?_, ?_, ?_⟩ <;>
    norm_num [m_game_total, project_divisors, cfgNegGameTotal, cfgZeroGameTotal,
      builtinConfig, neutralIn]

/-- C3 (amended): the opponent-allowed, pace, recent-form, minutes-trend and
potential-conversion factors resolve to the neutral 1.0 whenever their
defining baseline is non-positive, for every configuration and input; the
game-total and team-total divisions are unguarded, but every divisor `project`
evaluates under the built-in configuration is positive, so no division by
zero occurs there for any input. -/
theorem division_guards_amended (cfg : Config) (i : Inputs) :
    (cfg.LEAGUE_AVG_AST_ALLOWED ≤ 0 → m_def_ast cfg i = 1)
    ∧ (cfg.LEAGUE_AVG_PACE ≤ 0 → m_pace cfg i = 1)
    ∧ (i.season_avg_ast ≤ 0 → m_recent cfg i = 1 ∧ m_potential_assists cfg i = 1)
    ∧ (i.season_avg_minutes ≤ 0 → m_minutes cfg i = 1)
    ∧ (∀ d ∈ project_divisors builtinConfig i, 0 < d) := by
  refine ⟨fun h => by simp [m_def_ast, h], fun h => by simp [m_pace, h],
    fun h => ⟨by simp [m_recent, h], by simp [m_potential_assists, h]⟩,
    fun h => by simp [m_minutes, h], fun d hd => ?_⟩
  unfold project_divisors at hd
  rw [List.mem_append, List.mem_append, List.mem_append, List.mem_append,
    List.mem_append] at hd
  rcases hd with ((((h | h) | h) | h) | h) | h
  · simp [builtinConfig] at h
    rcases h with rfl | rfl <;> norm_num
  · obtain ⟨-, rfl⟩ := mem_guard_list h
    norm_num [builtinConfig]
  · obtain ⟨-, rfl⟩ := mem_guard_list h
    norm_num [builtinConfig]
  · obtain ⟨hc, rfl⟩ := mem_guard_list h
    rw [not_or] at hc
    exact not_le.mp hc.2
  · obtain ⟨hc, rfl⟩ := mem_guard_list h
    rw [not_or] at hc
    exact not_le.mp hc.2
  · obtain ⟨hc, rfl⟩ := mem_guard_list h
    rw [not_or] at hc
    exact not_le.mp hc.2

/-- C3 (witness): the amended theorem applied at a degenerate configuration
(zero opponent-allowed baseline, negative pace baseline) and a degenerate
input (negative season average, zero season minutes), with each hypothesis
discharged by evaluation; and the positivity of a concrete divisor of the
built-in configuration. -/
theorem division_guards_amended_witness :
    (cfgDegenerate.LEAGUE_AVG_AST_ALLOWED ≤ 0 ∧ m_def_ast cfgDegenerate degIn = 1)
    ∧ (cfgDegenerate.LEAGUE_AVG_PACE ≤ 0 ∧ m_pace cfgDegenerate degIn = 1)
    ∧ (degIn.season_avg_ast ≤ 0 ∧ m_recent cfgDegenerate degIn = 1
       ∧ m_potential_assists cfgDegenerate degIn = 1)
    ∧ (degIn.season_avg_minutes ≤ 0 ∧ m_minutes cfgDegenerate degIn = 1)
    ∧ ((229:ℚ) ∈ project_divisors builtinConfig degIn ∧ (0:ℚ) < 229) := by
  have h := division_guards_amended cfgDegenerate degIn
  have h1 : cfgDegenerate.LEAGUE_AVG_AST_ALLOWED ≤ 0 := by norm_num [cfgDegenerate, builtinConfig]
  have h2 : cfgDegenerate.LEAGUE_AVG_PACE ≤ 0 := by norm_num [cfgDegenerate, builtinConfig]
  have h3 : degIn.season_avg_ast ≤ 0 := by norm_num [degIn, neutralIn]
  have h4 : degIn.season_avg_minutes ≤ 0 := by norm_num [degIn, neutralIn]
  have hmem : (229:ℚ) ∈ project_divisors builtinConfig degIn := by
    norm_num [project_divisors, builtinConfig, degIn, neutralIn]
  exact ⟨⟨h1, h.1 h1⟩, ⟨h2, h.2.1 h2⟩, ⟨h3, h.2.2.1 h3⟩, ⟨h4, h.2.2.2.1 h4⟩,
    hmem, (division_guards_amended cfgDegenerate degIn).2.2.2.2 229 hmem⟩

/-- C4 (counterexample): at the end-to-end example input of the specification,
the home/away factor is 1.03 (more than 0.02 away from 1.0) and the projection
is 5.15005768 (more than 0.1 away from 5.0): "every factor approximately 1.0,
projection approximately 5.0" fails. -/
theorem example_projection_exceeds_five :
    (project builtinConfig specIn).m_homeaway = 103/100
    ∧ (1:ℚ) + 1/50 < (project builtinConfig specIn).m_homeaway
    ∧ (project builtinConfig specIn).projection = 64375721/12500000
    ∧ (5:ℚ) + 1/10 < (project builtinConfig specIn).projection := by
  refine ⟨?_, ?_, ?_, ?_⟩ <;>
    norm_num [project, base_assists, m_homeaway, m_game_total, m_team_total, m_def_ast,
      m_pace, m_recent, m_minutes, m_b2b, m_potential_assists, clamp, builtinConfig,
      specIn, neutralIn]

/-- C4 (amended): at the end-to-end example input the base value is exactly
5.0; the seven factors other than home/away and potential-conversion are
exactly 1.0; the potential factor is 1.0000112 (within 0.0001 of 1.0); the
home/away factor is 1.03; the uncapped and final multipliers are both
1.030011536; and the projection is 5.15005768, i.e. approximately 5.15, not
5.0. -/
theorem example_projection_exact :
    (project builtinConfig specIn).base_assists = 5
    ∧ (project builtinConfig specIn).m_homeaway = 103/100
    ∧ (project builtinConfig specIn).m_game_total = 1
    ∧ (project builtinConfig specIn).m_team_total = 1
    ∧ (project builtinConfig specIn).m_def_ast = 1
    ∧ (project builtinConfig specIn).m_pace = 1
    ∧ (project builtinConfig specIn).m_recent = 1
    ∧ (project builtinConfig specIn).m_minutes = 1
    ∧ (project builtinConfig specIn).m_b2b = 1
    ∧ (project builtinConfig specIn).m_potential = 625007/625000
    ∧ (project builtinConfig specIn).uncapped_multiplier = 64375721/62500000
    ∧ (project builtinConfig specIn).final_multiplier = 64375721/62500000
    ∧ (project builtinConfig specIn).projection = 64375721/12500000 := by
  refine ⟨?_, ?_, ?_, ?_, ?_, ?_, ?_, ?_, ?_, ?_, ?_, ?_, ?_⟩ <;>
    norm_num [project, base_assists, m_homeaway, m_game_total, m_team_total, m_def_ast,
      m_pace, m_recent, m_minutes, m_b2b, m_potential_assists, clamp, builtinConfig,
      specIn, neutralIn]

/-- C5: setting any single factor's weight to 0 forces that factor to exactly
1.0, for every configuration of the remaining constants and every input. -/
theorem zero_weight_forces_neutral_factor (cfg : Config) (i : Inputs) :
    m_homeaway { cfg with W_HOME_AWAY := 0 } i = 1
    ∧ m_game_total { cfg with W_GAME_TOTAL := 0 } i = 1
    ∧ m_team_total { cfg with W_TEAM_TOTAL := 0 } i = 1
    ∧ m_def_ast { cfg with W_DEF_AST_ALLOWED := 0 } i = 1
    ∧ m_pace { cfg with W_PACE := 0 } i = 1
    ∧ m_recent { cfg with W_RECENT_FORM := 0 } i = 1
    ∧ m_minutes { cfg with W_MINUTES_TREND := 0 } i = 1
    ∧ m_b2b { cfg with W_BACK_TO_BACK := 0 } i = 1
    ∧ m_potential_assists { cfg with W_POTENTIAL_AST := 0 } i = 1 := by
  refine ⟨?_, ?_, ?_, ?_, ?_, ?_, ?_, ?_, ?_⟩ <;>
    simp [m_homeaway, m_game_total, m_team_total, m_def_ast, m_pace, m_recent,
      m_minutes, m_b2b, m_potential_assists]

/-- C6: a non-positive season assists average forces the recent-form and
potential-conversion factors to exactly 1.0; the minutes-trend factor is
forced to 1.0 by its own condition (non-positive season minutes), does not
depend on the season assists average at all, and is not forced to 1.0 by a
non-positive season assists average alone. -/
theorem season_nonpos_forces_neutral (i : Inputs) :
    (i.season_avg_ast ≤ 0 → m_recent builtinConfig i = 1
      ∧ m_potential_assists builtinConfig i = 1)
    ∧ (i.season_avg_minutes ≤ 0 → m_minutes builtinConfig i = 1)
    ∧ (∀ q : ℚ, m_minutes builtinConfig { i with season_avg_ast := q } = m_minutes builtinConfig i)
    ∧ ¬ (∀ j : Inputs, j.season_avg_ast ≤ 0 → m_minutes builtinConfig j = 1) := by
  refine ⟨fun h => ⟨by simp [m_recent, h], by simp [m_potential_assists, h]⟩,
    fun h => by simp [m_minutes, h], fun q => rfl, fun hall => ?_⟩
  have h := hall degMinutesIn (by norm_num [degMinutesIn, neutralIn])
  norm_num [m_minutes, builtinConfig, degMinutesIn, neutralIn] at h

/-- C6 (witness): the theorem applied at the degenerate input (season assists
average -1, season minutes 0), with both guard hypotheses discharged by
evaluation, plus an instance of the independence conjunct. -/
theorem season_nonpos_forces_neutral_witness :
    degIn.season_avg_ast ≤ 0 ∧ degIn.season_avg_minutes ≤ 0
    ∧ m_recent builtinConfig degIn = 1 ∧ m_potential_assists builtinConfig degIn = 1
    ∧ m_minutes builtinConfig degIn = 1
    ∧ m_minutes builtinConfig { degIn with season_avg_ast := 7 } = m_minutes builtinConfig degIn := by
  have h := season_nonpos_forces_neutral degIn
  have h1 : degIn.season_avg_ast ≤ 0 := by norm_num [degIn, neutralIn]
  have h2 : degIn.season_avg_minutes ≤ 0 := by norm_num [degIn, neutralIn]
  exact ⟨h1, h2, (h.1 h1).1, (h.1 h1).2, h.2.1 h2, h.2.2.1 7⟩

/-- C7: the opponent-allowed factor is strictly increasing in the opponent
allowed rate, for any two inputs identical except for that rate, whenever the
baseline and the weight are positive. -/
theorem m_def_ast_strict_increasing (cfg : Config) (i : Inputs) (x y : ℚ)
    (hb : 0 < cfg.LEAGUE_AVG_AST_ALLOWED) (hw : 0 < cfg.W_DEF_AST_ALLOWED) (hxy : x < y) :
    m_def_ast cfg { i with opp_ast_allowed := x } < m_def_ast cfg { i with opp_ast_allowed := y } := by
  have hng : ¬ cfg.LEAGUE_AVG_AST_ALLOWED ≤ 0 := not_le.mpr hb
  simp only [m_def_ast, if_neg hng]
  have h1 : (x - cfg.LEAGUE_AVG_AST_ALLOWED) / cfg.LEAGUE_AVG_AST_ALLOWED
      < (y - cfg.LEAGUE_AVG_AST_ALLOWED) / cfg.LEAGUE_AVG_AST_ALLOWED :=
    (div_lt_div_iff_of_pos_right hb).mpr (sub_lt_sub_right hxy _)
  have h2 := mul_lt_mul_of_pos_right h1 hw
  linarith

/-- C7 (witness): strict monotonicity at the built-in configuration between
the concrete rates 20 and 30. -/
theorem m_def_ast_strict_increasing_witness :
    0 < builtinConfig.LEAGUE_AVG_AST_ALLOWED ∧ 0 < builtinConfig.W_DEF_AST_ALLOWED
    ∧ (20:ℚ) < 30
    ∧ m_def_ast builtinConfig { neutralIn with opp_ast_allowed := 20 }
        < m_def_ast builtinConfig { neutralIn with opp_ast_allowed := 30 } :=
  ⟨by norm_num [builtinConfig], by norm_num [builtinConfig], by norm_num,
    m_def_ast_strict_increasing builtinConfig neutralIn 20 30
      (by norm_num [builtinConfig]) (by norm_num [builtinConfig]) (by norm_num)⟩

/-- C8: `project` is a pure function of the numeric and boolean input fields:
replacing the player name by any other string leaves the entire output record
unchanged, so any two evaluations agreeing on all non-name fields coincide. -/
theorem project_independent_of_player_name (cfg : Config) (i : Inputs) (s : String) :
    project cfg { i with player_name := s } = project cfg i := rfl

/-- C9: with the built-in weight 0.03, the home/away factor is exactly 1.03
at home and exactly 0.97 away, and is never equal to the neutral 1.0. -/
theorem homeaway_factor_never_neutral (i : Inputs) :
    m_homeaway builtinConfig i = (if i.is_home then (103:ℚ)/100 else 97/100)
    ∧ m_homeaway builtinConfig i ≠ 1 := by
  cases h : i.is_home <;> constructor <;> norm_num [m_homeaway, h, builtinConfig]

/-- C10: changing only the `is_home` field leaves the base value and the
eight factors other than the home/away factor unchanged. -/
theorem is_home_frame_property (cfg : Config) (i : Inputs) (b : Bool) :
    (project cfg { i with is_home := b }).base_assists = (project cfg i).base_assists
    ∧ (project cfg { i with is_home := b }).m_game_total = (project cfg i).m_game_total
    ∧ (project cfg { i with is_home := b }).m_team_total = (project cfg i).m_team_total
    ∧ (project cfg { i with is_home := b }).m_def_ast = (project cfg i).m_def_ast
    ∧ (project cfg { i with is_home := b }).m_pace = (project cfg i).m_pace
    ∧ (project cfg { i with is_home := b }).m_recent = (project cfg i).m_recent
    ∧ (project cfg { i with is_home := b }).m_minutes = (project cfg i).m_minutes
    ∧ (project cfg { i with is_home := b }).m_b2b = (project cfg i).m_b2b
    ∧ (project cfg { i with is_home := b }).m_potential = (project cfg i).m_potential :=
  ⟨rfl, rfl, rfl, rfl, rfl, rfl, rfl, rfl, rfl⟩
